import Mathlib

/-!
# Model of the Supabase message-store facade (`supabase_client.py`)

This file embeds the data model and the operations of the WhatsApp
message-store facade into Lean and proves the specified properties.

Modelling conventions:
* The remote store is a pair of row lists (`conversations`, `messages`)
  together with fresh-id counters; a remote insert appends a row stamped
  with the next counter value.
* `created_at` timestamps are naturals (ISO-8601 strings of a fixed format
  compare chronologically, so a totally ordered numeric stamp is faithful).
* Row ids are naturals (the Python code shuttles them through `str`, which
  is injective, so identification is harmless).
* A remote call can fail.  Failures are modelled by an `Oracle`: the n-th
  remote call of an operation raises with message `e` when the oracle maps
  its index to `some e`.  A Python `try`/`except` boundary becomes a
  `match` on the `Except` value produced by the call sequence.
* Python truthiness of an optional string (`None` and `""` are falsy) is
  `pyTruthy`.
* `ilike '%p%'` is case-insensitive substring matching, modelled on
  character lists via `Char.toLower`; `ilike '%p'` (used with `not_` for
  the group suffix) is case-insensitive suffix matching.
* The PostgREST `order(...)` is modelled with `List.insertionSort`, a
  correct (and stable) realisation of the requested ordering.
-/

namespace Supabase

/-- Python truthiness of an optional string: `None` and `""` are falsy. -/
def pyTruthy : Option String → Bool
  | none => false
  | some s => !s.isEmpty

/-- Characters of a string, lower-cased (for `ilike` case-insensitivity). -/
def lowerChars (s : String) : List Char := s.toList.map Char.toLower

/-- `hay ilike '%pat%'`: case-insensitive substring containment. -/
def iliContains (hay pat : String) : Bool :=
  decide (lowerChars pat <:+: lowerChars hay)

/-- `hay ilike '%pat'`: case-insensitive suffix match. -/
def iliSuffix (hay pat : String) : Bool :=
  (lowerChars pat).isSuffixOf (lowerChars hay)

/-- `ilike` applied to a nullable column: SQL `NULL ilike p` is not true. -/
def iliOptContains : Option String → String → Bool
  | none, _ => false
  | some s, pat => iliContains s pat

/-- `jid.split('@')[0] if '@' in jid else jid`: the portion of the
identifier before the first `'@'`, or the whole identifier without one. -/
def phonePart (jid : String) : String :=
  if jid.toList.contains '@' then String.mk (jid.toList.takeWhile (fun c => c != '@')) else jid

/-- A row of the remote `conversations` collection. -/
structure ConvRow where
  id : Nat
  channel : String
  contact_identifier : String
  contact_name : Option String
  status : String
  last_message_at : Option Nat
deriving Repr, DecidableEq

/-- A row of the remote `messages` collection.  `metadata_media_type`
models `metadata['media_type']` and `payload_media_type` models
`payload['media_type']` (the only keys the facade reads); `sender` and
`recipient` are nullable columns. -/
structure MsgRow where
  id : Nat
  conversation_id : Nat
  channel : String
  direction : String
  sender : Option String
  recipient : Option String
  body : String
  created_at : Nat
  metadata_media_type : Option String
  payload_media_type : Option String
  external_id : Option String
deriving Repr, DecidableEq

/-- The remote store: both collections plus fresh-id counters. -/
structure Store where
  conversations : List ConvRow
  messages : List MsgRow
  nextConvId : Nat
  nextMsgId : Nat
deriving Repr, DecidableEq

/-- The `Message` dataclass. -/
structure Message where
  timestamp : Nat
  sender : String
  content : String
  is_from_me : Bool
  chat_jid : String
  id : Nat
  chat_name : Option String := none
  media_type : Option String := none
deriving Repr, DecidableEq

/-- The `MessageContext` dataclass. -/
structure MessageContext where
  message : Message
  before : List Message
  after : List Message
deriving Repr, DecidableEq

/-- The dictionaries returned by `search_contacts`. -/
structure ContactEntry where
  phone_number : String
  name : Option String
  jid : String
deriving Repr, DecidableEq

/-- Remote-failure oracle: the n-th remote call of an operation raises
with message `e` when the oracle yields `some e` at that index. -/
def Oracle : Type := Nat → Option String

/-- The all-successful remote behaviour. -/
def okOracle : Oracle := fun _ => none

/-- The one-hop join `messages → conversations` (the embedded
`conversations!inner(...)` resource): the owning conversation row. -/
def convOf (store : Store) (cid : Nat) : Option ConvRow :=
  store.conversations.find? (fun c => c.id == cid)

/-- `_row_to_message(row)`: convert a database row to a `Message`.
`conversation` is the joined `row.get('conversations', {})` data (absent
when the select carried no embed), `conversation_name` the optional
override argument. -/
def row_to_message (row : MsgRow) (conversation : Option ConvRow)
    (conversation_name : Option String) : Message :=
  let is_from_me := row.direction == "outbound"
  let media_type := if pyTruthy row.metadata_media_type then row.metadata_media_type
                    else row.payload_media_type
  let cj0 := if is_from_me then row.recipient else row.sender
  let chat_jid := if pyTruthy cj0 then cj0.getD ""
                  else (conversation.map (fun c => c.contact_identifier)).getD ""
  { timestamp := row.created_at
    sender := row.sender.getD ""
    content := row.body
    is_from_me := is_from_me
    chat_jid := chat_jid
    id := row.id
    chat_name := if pyTruthy conversation_name then conversation_name
                 else conversation.bind (fun c => c.contact_name)
    media_type := media_type }

/-! ## `get_sender_name` -/

/-- The conversation-lookup filter used throughout:
`contact_identifier = jid` and `channel = 'whatsapp'`. -/
def convPred (jid : String) (c : ConvRow) : Bool :=
  c.contact_identifier == jid && c.channel == "whatsapp"

/-- `result.data` of the exact-match query of `get_sender_name`:
`conversations` filtered by `contact_identifier = jid` and
`channel = 'whatsapp'`, `limit 1`. -/
def exactNameRows (store : Store) (jid : String) : List ConvRow :=
  (store.conversations.filter (convPred jid)).take 1

/-- `result.data` of the fuzzy query: `contact_identifier ilike
'%phone_part%'` and `channel = 'whatsapp'`, `limit 1`. -/
def fuzzyNameRows (store : Store) (jid : String) : List ConvRow :=
  (store.conversations.filter
    (fun c => iliContains c.contact_identifier (phonePart jid)
      && c.channel == "whatsapp")).take 1

/-- The guard `result.data and result.data[0].get('contact_name')`: the
first row's contact name when the result is non-empty and that name is
truthy, else `none`. -/
def headTruthyName : List ConvRow → Option String
  | [] => none
  | c :: _ => if pyTruthy c.contact_name then c.contact_name else none

/-- `get_sender_name(sender_jid)`: exact match, then fuzzy match on the
pre-`'@'` portion, else the input; any remote failure is caught and the
input is returned. -/
def get_sender_name (store : Store) (oracle : Oracle) (sender_jid : String) : String :=
  match oracle 0 with
  | some _ => sender_jid
  | none =>
    match headTruthyName (exactNameRows store sender_jid) with
    | some name => name
    | none =>
      match oracle 1 with
      | some _ => sender_jid
      | none =>
        match headTruthyName (fuzzyNameRows store sender_jid) with
        | some name => name
        | none => sender_jid

/-! ## Formatting -/

/-- The `%Y-%m-%d %H:%M:%S` rendering of a timestamp, abstracted (the
claims do not depend on the concrete digits). -/
def formatTs (t : Nat) : String := toString t

/-- The part of `format_message`'s output built before the `try` block:
the timestamp bracket, with the chat name when requested and truthy. -/
def formatHeader (message : Message) (show_chat_info : Bool) : String :=
  if show_chat_info && pyTruthy message.chat_name then
    "[" ++ formatTs message.timestamp ++ "] Chat: " ++ message.chat_name.getD "" ++ " "
  else
    "[" ++ formatTs message.timestamp ++ "] "

/-- `format_message(message, show_chat_info)`.  `resolve` is the
sender-name resolution step performed inside the `try` block (in the
source it is `get_sender_name`, which never raises; the parameter keeps
the possibly-failing step explicit).  On a failure of that step the
exception is swallowed and only the header built so far is returned. -/
def format_message (resolve : String → Except String String)
    (message : Message) (show_chat_info : Bool) : String :=
  let output := formatHeader message show_chat_info
  let contentTag :=
    if pyTruthy message.media_type then
      "[" ++ message.media_type.getD "" ++ " - Message ID: " ++ toString message.id
        ++ " - Chat JID: " ++ message.chat_jid ++ "] "
    else ""
  match (if message.is_from_me then Except.ok "Me" else resolve message.sender) with
  | Except.ok sender_name =>
      output ++ "From: " ++ sender_name ++ ": " ++ contentTag ++ message.content ++ "\n"
  | Except.error _ => output

/-- The resolver actually used by the facade: `get_sender_name`, which
catches its own remote failures and therefore never raises. -/
def okResolver (store : Store) (nameOracle : Oracle) : String → Except String String :=
  fun s => Except.ok (get_sender_name store nameOracle s)

/-- `format_messages_list(messages, show_chat_info)`. -/
def format_messages_list (resolve : String → Except String String)
    (messages : List Message) (show_chat_info : Bool) : String :=
  if messages.isEmpty then "No messages to display."
  else messages.foldl (fun acc m => acc ++ format_message resolve m show_chat_info) ""

/-! ## `get_message_context` -/

/-- `.single()`: succeeds exactly when the filtered result has one row. -/
def single {α : Type} (rows : List α) : Except String α :=
  match rows with
  | [r] => Except.ok r
  | _ => Except.error "JSON object requested, multiple (or no) rows returned"

/-- The descending `created_at` ordering used by the store. -/
def tsDescRel (a b : MsgRow) : Prop := b.created_at ≤ a.created_at

instance : DecidableRel tsDescRel := fun a b => Nat.decLe b.created_at a.created_at

instance : IsTrans MsgRow tsDescRel :=
  ⟨fun _ _ _ hab hbc => Nat.le_trans hbc hab⟩

instance : IsTotal MsgRow tsDescRel :=
  ⟨fun a b => Nat.le_total b.created_at a.created_at⟩

/-- The ascending `created_at` ordering used by the store. -/
def tsAscRel (a b : MsgRow) : Prop := a.created_at ≤ b.created_at

instance : DecidableRel tsAscRel := fun a b => Nat.decLe a.created_at b.created_at

instance : IsTrans MsgRow tsAscRel :=
  ⟨fun _ _ _ hab hbc => Nat.le_trans hab hbc⟩

instance : IsTotal MsgRow tsAscRel :=
  ⟨fun a b => Nat.le_total a.created_at b.created_at⟩

/-- Result rows of the target-message query of `get_message_context`:
`messages` filtered by `id = message_id`, inner-joined to
`conversations`. -/
def contextTargetRows (store : Store) (message_id : Nat) : List MsgRow :=
  store.messages.filter
    (fun m => m.id == message_id && (convOf store m.conversation_id).isSome)

/-- Result rows of the before-window query: same conversation, strictly
earlier `created_at`, descending order, `limit lim`. -/
def beforeRows (store : Store) (cid ts lim : Nat) : List MsgRow :=
  ((store.messages.filter
    (fun m => m.conversation_id == cid && decide (m.created_at < ts)
      && (convOf store m.conversation_id).isSome)).insertionSort tsDescRel).take lim

/-- Result rows of the after-window query: same conversation, strictly
later `created_at`, ascending order, `limit lim`. -/
def afterRows (store : Store) (cid ts lim : Nat) : List MsgRow :=
  ((store.messages.filter
    (fun m => m.conversation_id == cid && decide (ts < m.created_at)
      && (convOf store m.conversation_id).isSome)).insertionSort tsAscRel).take lim

/-- The call sequence of `get_message_context`, starting at remote-call
index `startIdx` (three remote calls: target fetch, before window, after
window); returns the context together with the next call index. -/
def get_message_contextAt (store : Store) (oracle : Oracle) (startIdx : Nat)
    (message_id before after : Nat) : Except String (MessageContext × Nat) :=
  match oracle startIdx with
  | some e => Except.error e
  | none =>
    match single (contextTargetRows store message_id) with
    | Except.error e => Except.error e
    | Except.ok row =>
      let target_message := row_to_message row (convOf store row.conversation_id) none
      let conversation_id := row.conversation_id
      let target_timestamp := row.created_at
      match oracle (startIdx + 1) with
      | some e => Except.error e
      | none =>
        let before_messages :=
          ((beforeRows store conversation_id target_timestamp before).reverse).map
            (fun r => row_to_message r (convOf store r.conversation_id) none)
        match oracle (startIdx + 2) with
        | some e => Except.error e
        | none =>
          let after_messages :=
            (afterRows store conversation_id target_timestamp after).map
              (fun r => row_to_message r (convOf store r.conversation_id) none)
          Except.ok
            ({ message := target_message
               before := before_messages
               after := after_messages }, startIdx + 3)

/-- `get_message_context(message_id, before, after)`: the `except` block
re-raises, so failures propagate to the caller. -/
def get_message_context (store : Store) (oracle : Oracle)
    (message_id before after : Nat) : Except String MessageContext :=
  (get_message_contextAt store oracle 0 message_id before after).map Prod.fst

/-! ## `list_messages` -/

/-- The filtered message query of `list_messages`: channel fixed to
`whatsapp`, inner join to `conversations`, then the optional bounds
(`gte`/`lte` on `created_at`, already parsed to stamps), exact sender,
exact joined chat identifier, and case-insensitive body substring.  A
filter is applied only when its argument is truthy, mirroring the
`if arg:` guards. -/
def list_messagesFiltered (store : Store) (after? before? : Option Nat)
    (sender? chatj? query? : Option String) : List MsgRow :=
  store.messages.filter (fun m =>
    m.channel == "whatsapp" && (convOf store m.conversation_id).isSome
    && (match after? with | some a => decide (a ≤ m.created_at) | none => true)
    && (match before? with | some b => decide (m.created_at ≤ b) | none => true)
    && (if pyTruthy sender? then m.sender == sender? else true)
    && (if pyTruthy chatj? then
          (convOf store m.conversation_id).any
            (fun c => c.contact_identifier == chatj?.getD "")
        else true)
    && (if pyTruthy query? then iliContains m.body (query?.getD "") else true))

/-- The page returned by the main query of `list_messages`: reverse
chronological order, then `range(offset, offset + limit - 1)`, i.e. drop
`page * limit` rows and keep `limit`. -/
def list_messagesRows (store : Store) (after? before? : Option Nat)
    (sender? chatj? query? : Option String) (limit page : Nat) : List MsgRow :=
  (((list_messagesFiltered store after? before? sender? chatj? query?).insertionSort
      tsDescRel).drop (page * limit)).take limit

/-- The context-expansion loop of `list_messages`: for each result
message, fetch its context (three remote calls each, threading the call
index) and splice `before ++ [message] ++ after` in result order. -/
def expandContexts (store : Store) (oracle : Oracle) (cb ca : Nat) :
    List Message → Nat → Except String (List Message × Nat)
  | [], idx => Except.ok ([], idx)
  | msg :: rest, idx =>
    match get_message_contextAt store oracle idx msg.id cb ca with
    | Except.error e => Except.error e
    | Except.ok (ctx, idx1) =>
      match expandContexts store oracle cb ca rest idx1 with
      | Except.error e => Except.error e
      | Except.ok (tail, idx2) =>
          Except.ok (ctx.before ++ ctx.message :: (ctx.after ++ tail), idx2)

/-- The body of `list_messages` inside its `try` block.  `nameOracle`
is the remote behaviour seen by the (self-catching) `get_sender_name`
calls made while formatting. -/
def list_messagesBody (store : Store) (oracle nameOracle : Oracle)
    (after? before? : Option Nat) (sender? chatj? query? : Option String)
    (limit page : Nat) (include_context : Bool) (cb ca : Nat) :
    Except String String :=
  match oracle 0 with
  | some e => Except.error e
  | none =>
    let rows := list_messagesRows store after? before? sender? chatj? query? limit page
    let messages := rows.map (fun r => row_to_message r (convOf store r.conversation_id) none)
    if include_context && !messages.isEmpty then
      match expandContexts store oracle cb ca messages 1 with
      | Except.error e => Except.error e
      | Except.ok (mwc, _) =>
          Except.ok (format_messages_list (okResolver store nameOracle) mwc true)
    else
      Except.ok (format_messages_list (okResolver store nameOracle) messages true)

/-- `list_messages(...)`: the boundary `except` turns any raised failure
into an `"Error: ..."` string, so a string is returned in all cases. -/
def list_messages (store : Store) (oracle nameOracle : Oracle)
    (after? before? : Option Nat) (sender? chatj? query? : Option String)
    (limit page : Nat) (include_context : Bool) (cb ca : Nat) : String :=
  match list_messagesBody store oracle nameOracle after? before? sender? chatj? query?
      limit page include_context cb ca with
  | Except.ok s => s
  | Except.error e => "Error: " ++ e

/-! ## `search_contacts` -/

/-- Ascending `contact_name` with SQL `NULL`s last. -/
def optNameLe : Option String → Option String → Bool
  | none, none => true
  | none, some _ => false
  | some _, none => true
  | some x, some y => decide (x ≤ y)

/-- The row ordering of `search_contacts`. -/
def nameAscRel (a b : ConvRow) : Prop :=
  optNameLe a.contact_name b.contact_name = true

instance : DecidableRel nameAscRel := fun a b =>
  instDecidableEqBool (optNameLe a.contact_name b.contact_name) true

/-- `search_contacts(query)`: whatsapp conversations whose identifier
does not end (case-insensitively) with `@g.us`, whose name or identifier
contains the query, sorted by name, capped at 50 rows, each split into a
phone-number-like prefix; any failure is caught and yields `[]`. -/
def search_contacts (store : Store) (oracle : Oracle) (query : String) :
    List ContactEntry :=
  match oracle 0 with
  | some _ => []
  | none =>
    let rows := store.conversations.filter (fun c =>
      c.channel == "whatsapp"
      && !(iliSuffix c.contact_identifier "@g.us")
      && (iliOptContains c.contact_name query || iliContains c.contact_identifier query))
    ((rows.insertionSort nameAscRel).take 50).map (fun c =>
      { phone_number := phonePart c.contact_identifier
        name := c.contact_name
        jid := c.contact_identifier })

/-! ## `save_message` and `update_contact_name` -/

/-- The `last_message_at` bump applied to the owning conversation row. -/
def bumpLast (cid now : Nat) (c : ConvRow) : ConvRow :=
  if c.id == cid then { c with last_message_at := some now } else c

/-- The `message_data` row inserted by `save_message`: channel
`whatsapp`, both endpoints stored, `created_at` stamped with `now`, and
`metadata` carrying the media type only when truthy. -/
def insertedRow (mid conversation_id : Nat) (sender recipient body direction : String)
    (external_id media_type : Option String) (now : Nat) : MsgRow :=
  { id := mid
    conversation_id := conversation_id
    channel := "whatsapp"
    direction := direction
    sender := some sender
    recipient := some recipient
    body := body
    created_at := now
    metadata_media_type := if pyTruthy media_type then media_type else none
    payload_media_type := none
    external_id := external_id }

/-- The message-insert and conversation-bump tail of `save_message`,
starting at remote-call index `idx` with the resolved conversation id.
On a failure of the bump the already-inserted message row stays (partial
writes are not rolled back). -/
def save_messageRest (store : Store) (oracle : Oracle) (idx conversation_id : Nat)
    (sender recipient body direction : String)
    (external_id media_type : Option String) (now : Nat) : Option Nat × Store :=
  match oracle idx with
  | some _ => (none, store)
  | none =>
    let mid := store.nextMsgId
    let msgRow := insertedRow mid conversation_id sender recipient body direction
      external_id media_type now
    let store1 : Store :=
      { store with messages := store.messages ++ [msgRow], nextMsgId := mid + 1 }
    match oracle (idx + 1) with
    | some _ => (none, store1)
    | none =>
      (some mid,
        { store1 with
            conversations := store1.conversations.map (bumpLast conversation_id now) })

/-- The conversation row created by `save_message` on first contact:
status `active`, name unset. -/
def newConvRow (cid : Nat) (jid : String) : ConvRow :=
  { id := cid
    channel := "whatsapp"
    contact_identifier := jid
    contact_name := none
    status := "active"
    last_message_at := none }

/-- `save_message(...)`: look the conversation up by identifier, create
it (status `active`, name unset) when absent, insert the message row
stamped `timestamp or utcnow()`, bump the conversation's
`last_message_at`, and return the new row's id; any failure is caught
and reported as `none`.  `now_utc` models `datetime.utcnow()`. -/
def save_message (store : Store) (oracle : Oracle)
    (conversation_jid sender recipient body direction : String)
    (external_id media_type : Option String) (timestamp : Option Nat)
    (now_utc : Nat) : Option Nat × Store :=
  let now := timestamp.getD now_utc
  match oracle 0 with
  | some _ => (none, store)
  | none =>
    match (store.conversations.filter (convPred conversation_jid)).take 1 with
    | c :: _ =>
        save_messageRest store oracle 1 c.id sender recipient body direction
          external_id media_type now
    | [] =>
        match oracle 1 with
        | some _ => (none, store)
        | none =>
          let newConv := newConvRow store.nextConvId conversation_jid
          let store1 : Store :=
            { store with
                conversations := store.conversations ++ [newConv]
                nextConvId := store.nextConvId + 1 }
          save_messageRest store1 oracle 2 newConv.id sender recipient body direction
            external_id media_type now

/-- `update_contact_name(jid, name)`: unconditional remote update of the
matching conversations' display name; `true` unless the call raises. -/
def update_contact_name (store : Store) (oracle : Oracle) (jid name : String) :
    Bool × Store :=
  match oracle 0 with
  | some _ => (false, store)
  | none =>
    (true,
      { store with
          conversations := store.conversations.map (fun c =>
            if c.contact_identifier == jid && c.channel == "whatsapp" then
              { c with contact_name := some name }
            else c) })

/-! ## Concrete fixtures -/

/-- A store with no rows. -/
def demoEmpty : Store := { conversations := [], messages := [], nextConvId := 1, nextMsgId := 1 }

/-- One whatsapp conversation named Alice. -/
def demoAlice : Store :=
  { conversations := [
      { id := 1, channel := "whatsapp", contact_identifier := "123@s.whatsapp.net"
        contact_name := some "Alice", status := "active", last_message_at := none }]
    messages := [], nextConvId := 2, nextMsgId := 1 }

/-- One whatsapp conversation whose stored display name is the empty
string. -/
def demoEmptyName : Store :=
  { conversations := [
      { id := 1, channel := "whatsapp", contact_identifier := "123@s.whatsapp.net"
        contact_name := some "", status := "active", last_message_at := none }]
    messages := [], nextConvId := 2, nextMsgId := 1 }

/-- A conversation with three messages at stamps 10, 20, 30. -/
def demoCtxRow1 : MsgRow :=
  { id := 1, conversation_id := 1, channel := "whatsapp", direction := "inbound"
    sender := some "123@s.whatsapp.net", recipient := some "me", body := "a"
    created_at := 10, metadata_media_type := none, payload_media_type := none
    external_id := none }

def demoCtxRow2 : MsgRow :=
  { demoCtxRow1 with
    id := 2
    direction := "outbound"
    sender := some "me"
    recipient := some "123@s.whatsapp.net"
    body := "b"
    created_at := 20 }

def demoCtxRow3 : MsgRow :=
  { demoCtxRow1 with id := 3, body := "c", created_at := 30 }

def demoCtxStore : Store :=
  { conversations := [
      { id := 1, channel := "whatsapp", contact_identifier := "123@s.whatsapp.net"
        contact_name := some "Alice", status := "active", last_message_at := some 30 }]
    messages := [demoCtxRow1, demoCtxRow2, demoCtxRow3]
    nextConvId := 2, nextMsgId := 4 }

/-- A plain inbound message with no chat name and no media. -/
def demoMsg : Message :=
  { timestamp := 5, sender := "77@s.whatsapp.net", content := "hi"
    is_from_me := false, chat_jid := "77@s.whatsapp.net", id := 9 }

/-- A concrete outbound message row with both endpoints present. -/
def demoOutRow : MsgRow :=
  { id := 4, conversation_id := 1, channel := "whatsapp", direction := "outbound"
    sender := some "me", recipient := some "123@s.whatsapp.net", body := "z"
    created_at := 40, metadata_media_type := none, payload_media_type := none
    external_id := none }

/-- A concrete conversation row for join fixtures. -/
def demoConv : ConvRow :=
  { id := 1, channel := "whatsapp", contact_identifier := "123@s.whatsapp.net"
    contact_name := some "Alice", status := "active", last_message_at := some 30 }

/-! ## Helper lemmas -/

theorem single_eq_ok {α : Type} {rows : List α} {r : α}
    (h : single rows = Except.ok r) : rows = [r] := by
  cases rows with
  | nil => simp [single] at h
  | cons x xs =>
    cases xs with
    | nil => simp [single] at h; rw [h]
    | cons y ys => simp [single] at h

theorem map_eq_self_of_mem {α : Type} {l : List α} {f : α → α}
    (h : ∀ a ∈ l, f a = a) : l.map f = l :=
  (List.map_congr_left h).trans (List.map_id l)

theorem row_to_message_timestamp (r : MsgRow) (c : Option ConvRow) (n : Option String) :
    (row_to_message r c n).timestamp = r.created_at := rfl

theorem row_to_message_id (r : MsgRow) (c : Option ConvRow) (n : Option String) :
    (row_to_message r c n).id = r.id := rfl

/-! ## Claims -/

/-- C7: for every stored message row converted with its joined parent
conversation, the message's `chat_jid` is the row's recipient when the
direction is `outbound`, else the row's sender; and when that chosen
field is absent (`NULL`) or empty, `chat_jid` falls back to the joined
conversation's identifier. -/
theorem row_to_message_chat_jid_spec (row : MsgRow) (conv : ConvRow) (cname : Option String) :
    (row.direction = "outbound" → pyTruthy row.recipient = true →
      (row_to_message row (some conv) cname).chat_jid = row.recipient.getD "")
    ∧ (row.direction = "outbound" → pyTruthy row.recipient = false →
      (row_to_message row (some conv) cname).chat_jid = conv.contact_identifier)
    ∧ (row.direction ≠ "outbound" → pyTruthy row.sender = true →
      (row_to_message row (some conv) cname).chat_jid = row.sender.getD "")
    ∧ (row.direction ≠ "outbound" → pyTruthy row.sender = false →
      (row_to_message row (some conv) cname).chat_jid = conv.contact_identifier) := by
  refine ⟨?_, ?_, ?_, ?_⟩ <;> intro hdir htr <;>
    simp [row_to_message, beq_iff_eq, hdir, htr]

/-- C7 witness: the outbound fixture row keeps its recipient as
`chat_jid`, and emptying the recipient falls back to the conversation's
identifier. -/
theorem row_to_message_chat_jid_spec_witness :
    (row_to_message demoOutRow (some demoConv) none).chat_jid = "123@s.whatsapp.net"
    ∧ (row_to_message { demoOutRow with recipient := none } (some demoConv) none).chat_jid
      = demoConv.contact_identifier :=
  ⟨(row_to_message_chat_jid_spec demoOutRow demoConv none).1 rfl (by decide),
   (row_to_message_chat_jid_spec { demoOutRow with recipient := none } demoConv none).2.1
     rfl (by decide)⟩

/-- C9 (amended): when the sender-name resolution step inside
`format_message` fails for a message not from self, the error is
swallowed and only the `From: ...` tail is omitted — the function still
returns the timestamp/chat header built before the `try` block, not the
empty string. -/
theorem format_message_swallows_resolver_failure
    (resolve : String → Except String String) (message : Message)
    (b : Bool) (e : String)
    (hme : message.is_from_me = false)
    (hres : resolve message.sender = Except.error e) :
    format_message resolve message b = formatHeader message b := by
  simp [format_message, hme, hres]

/-- C9 witness: the fixture message under an always-failing resolver
yields exactly its header. -/
theorem format_message_swallows_resolver_failure_witness :
    format_message (fun _ => Except.error "db down") demoMsg true = formatHeader demoMsg true :=
  format_message_swallows_resolver_failure (fun _ => Except.error "db down") demoMsg true
    "db down" rfl rfl

/-- C9 counterexample: under a failing resolver the message line is not
omitted wholesale — `format_message` still contributes the non-empty
timestamp header for that message. -/
theorem format_message_failure_counterexample :
    demoMsg.is_from_me = false
    ∧ format_message (fun _ => Except.error "db down") demoMsg true = "[5] "
    ∧ format_message (fun _ => Except.error "db down") demoMsg true ≠ "" := by
  refine ⟨rfl, rfl, ?_⟩
  decide

/-- C10: `update_contact_name` returns `true` exactly when the remote
update call completes without raising — in particular it returns `true`
(and changes nothing) even when no conversation row matches the given
identifier — and returns `false` only when the call raises. -/
theorem update_contact_name_reports_call_success
    (store : Store) (oracle : Oracle) (jid name : String) :
    ((update_contact_name store oracle jid name).1 = true ↔ oracle 0 = none)
    ∧ (oracle 0 = none →
        (∀ c ∈ store.conversations, ¬(c.contact_identifier = jid ∧ c.channel = "whatsapp")) →
        (update_contact_name store oracle jid name).2.conversations = store.conversations) := by
  constructor
  · cases h : oracle 0 <;> simp [update_contact_name, h]
  · intro h hnone
    simp only [update_contact_name, h]
    apply map_eq_self_of_mem
    intro c hc
    have hb : ¬(c.contact_identifier == jid && c.channel == "whatsapp") = true := by
      simp only [Bool.and_eq_true, beq_iff_eq]
      exact hnone c hc
    simp [hb]

/-- C10 witness: on the empty store (no matching row) the update
reports success and leaves the store unchanged. -/
theorem update_contact_name_reports_call_success_witness :
    (update_contact_name demoEmpty okOracle "7@s.whatsapp.net" "X").1 = true
    ∧ (update_contact_name demoEmpty okOracle "7@s.whatsapp.net" "X").2.conversations
      = demoEmpty.conversations :=
  ⟨(update_contact_name_reports_call_success demoEmpty okOracle "7@s.whatsapp.net" "X").1.mpr rfl,
   (update_contact_name_reports_call_success demoEmpty okOracle "7@s.whatsapp.net" "X").2 rfl
     (by simp [demoEmpty])⟩

/-- C2: for a message id carried by no stored row,
`get_message_context` propagates a failure to its caller (for every
remote behaviour), and in particular never returns a `MessageContext`. -/
theorem get_message_context_missing_raises
    (store : Store) (oracle : Oracle) (mid b a : Nat)
    (h : ∀ r ∈ store.messages, r.id ≠ mid) :
    ∃ e, get_message_context store oracle mid b a = Except.error e := by
  have hrows : contextTargetRows store mid = [] := by
    apply List.filter_eq_nil_iff.mpr
    intro m hm
    simp [h m hm]
  cases ho : oracle 0 with
  | some e => exact ⟨e, by simp [get_message_context, get_message_contextAt, ho, Except.map]⟩
  | none =>
    exact ⟨"JSON object requested, multiple (or no) rows returned",
      by simp [get_message_context, get_message_contextAt, ho, hrows, single, Except.map]⟩

/-- C2 witness: looking up id 7 in the empty store fails. -/
theorem get_message_context_missing_raises_witness :
    ∃ e, get_message_context demoEmpty okOracle 7 5 5 = Except.error e :=
  get_message_context_missing_raises demoEmpty okOracle 7 5 5 (by simp [demoEmpty])

/-- C5: `list_messages` is a total function into strings — for every
input and every remote behaviour (including failures raised while
expanding contexts) it returns either the successfully formatted list or
an `"Error: ..."` string; no failure escapes to the caller. -/
theorem list_messages_never_raises
    (store : Store) (oracle nameOracle : Oracle)
    (after? before? : Option Nat) (sender? chatj? query? : Option String)
    (limit page : Nat) (include_context : Bool) (cb ca : Nat) :
    (∃ s, list_messagesBody store oracle nameOracle after? before? sender? chatj? query?
        limit page include_context cb ca = Except.ok s
      ∧ list_messages store oracle nameOracle after? before? sender? chatj? query?
        limit page include_context cb ca = s)
    ∨ (∃ e, list_messagesBody store oracle nameOracle after? before? sender? chatj? query?
        limit page include_context cb ca = Except.error e
      ∧ list_messages store oracle nameOracle after? before? sender? chatj? query?
        limit page include_context cb ca = "Error: " ++ e) := by
  cases h : list_messagesBody store oracle nameOracle after? before? sender? chatj? query?
      limit page include_context cb ca with
  | ok s => exact Or.inl ⟨s, rfl, by simp [list_messages, h]⟩
  | error e => exact Or.inr ⟨e, rfl, by simp [list_messages, h]⟩

theorem phonePart_toList (jid : String) :
    (phonePart jid).toList = jid.toList.takeWhile (fun c => c != '@') := by
  unfold phonePart
  cases h : jid.toList.contains '@' with
  | true => rfl
  | false =>
    simp only [Bool.false_eq_true, if_false]
    symm
    apply List.takeWhile_eq_self_iff.mpr
    intro c hc
    have hmem : '@' ∉ jid.toList := by
      intro hm
      have : jid.toList.contains '@' = true :=
        List.contains_iff_exists_mem_beq.mpr ⟨'@', hm, by simp⟩
      rw [this] at h
      exact absurd h (by simp)
    simp only [bne_iff_ne, ne_eq]
    intro hcontra
    exact hmem (hcontra ▸ hc)

theorem not_gus_suffix_of_iliSuffix_false {s : String}
    (h : iliSuffix s "@g.us" = false) : ¬("@g.us".toList <:+ s.toList) := by
  intro hsfx
  have hmap : lowerChars "@g.us" <:+ lowerChars s := List.IsSuffix.map Char.toLower hsfx
  simp only [iliSuffix, List.isSuffixOf_iff_suffix, Bool.eq_false_iff, ne_eq,
    decide_eq_true_eq] at h
  exact absurd (List.isSuffixOf_iff_suffix.mpr hmap) (by simpa using h)

/-- C8: for every query and store state, `search_contacts` returns at
most 50 entries, none of whose identifiers end in the group suffix
`@g.us`, and each entry's `phone_number` is the portion of its
identifier before the first `'@'` (the whole identifier when it has
none). -/
theorem search_contacts_spec (store : Store) (oracle : Oracle) (q : String) :
    (search_contacts store oracle q).length ≤ 50
    ∧ ∀ entry ∈ search_contacts store oracle q,
        ¬("@g.us".toList <:+ entry.jid.toList)
        ∧ entry.phone_number.toList = entry.jid.toList.takeWhile (fun c => c != '@') := by
  cases ho : oracle 0 with
  | some e => simp [search_contacts, ho]
  | none =>
    constructor
    · simp only [search_contacts, ho, List.length_map, List.length_take]
      exact Nat.min_le_left _ _
    · intro entry hentry
      simp only [search_contacts, ho, List.mem_map] at hentry
      obtain ⟨c, hc, rfl⟩ := hentry
      have hc2 := (List.mem_insertionSort nameAscRel).mp (List.take_subset _ _ hc)
      rw [List.mem_filter] at hc2
      obtain ⟨-, hpred⟩ := hc2
      simp only [Bool.and_eq_true, Bool.not_eq_eq_eq_not, Bool.not_true] at hpred
      exact ⟨not_gus_suffix_of_iliSuffix_false hpred.1.2, phonePart_toList _⟩

/-- C8 witness: the Alice fixture produces one entry whose identifier
keeps the non-group suffix and whose phone number is the pre-`'@'`
digits. -/
theorem search_contacts_spec_witness :
    (search_contacts demoAlice okOracle "").length ≤ 50
    ∧ ¬("@g.us".toList <:+ ("123@s.whatsapp.net" : String).toList)
    ∧ ("123" : String).toList
      = ("123@s.whatsapp.net" : String).toList.takeWhile (fun c => c != '@') :=
  ⟨(search_contacts_spec demoAlice okOracle "").1,
   ((search_contacts_spec demoAlice okOracle "").2
     { phone_number := "123", name := some "Alice", jid := "123@s.whatsapp.net" }
     (by decide)).1,
   ((search_contacts_spec demoAlice okOracle "").2
     { phone_number := "123", name := some "Alice", jid := "123@s.whatsapp.net" }
     (by decide)).2⟩

/-- C6 counterexample: a conversation row whose identifier exactly
equals the input exists and stores the display name `""`, yet
`get_sender_name` returns the input identifier instead of that stored
display name. -/
theorem get_sender_name_counterexample :
    (∃ c ∈ demoEmptyName.conversations,
      c.contact_identifier = "123@s.whatsapp.net" ∧ c.contact_name = some "")
    ∧ get_sender_name demoEmptyName okOracle "123@s.whatsapp.net" = "123@s.whatsapp.net"
    ∧ ("123@s.whatsapp.net" : String) ≠ "" := by decide

/-- C6 (amended): `get_sender_name` returns the first exact-identifier
match's stored display name when that name is non-null and non-empty;
otherwise the first match on the pre-`'@'` numeric portion when that
name is non-null and non-empty; otherwise the input unchanged.  It never
raises: a remote failure at either query makes it return the input. -/
theorem get_sender_name_spec (store : Store) (oracle : Oracle) (jid : String) :
    (∀ e, oracle 0 = some e → get_sender_name store oracle jid = jid)
    ∧ (oracle 0 = none → ∀ nm, headTruthyName (exactNameRows store jid) = some nm →
        get_sender_name store oracle jid = nm)
    ∧ (oracle 0 = none → headTruthyName (exactNameRows store jid) = none →
        ∀ e, oracle 1 = some e → get_sender_name store oracle jid = jid)
    ∧ (oracle 0 = none → headTruthyName (exactNameRows store jid) = none →
        oracle 1 = none → ∀ nm, headTruthyName (fuzzyNameRows store jid) = some nm →
        get_sender_name store oracle jid = nm)
    ∧ (oracle 0 = none → headTruthyName (exactNameRows store jid) = none →
        oracle 1 = none → headTruthyName (fuzzyNameRows store jid) = none →
        get_sender_name store oracle jid = jid) := by
  refine ⟨?_, ?_, ?_, ?_, ?_⟩
  · intro e h; simp [get_sender_name, h]
  · intro h0 nm h1; simp [get_sender_name, h0, h1]
  · intro h0 h1 e h2; simp [get_sender_name, h0, h1, h2]
  · intro h0 h1 h2 nm h3; simp [get_sender_name, h0, h1, h2, h3]
  · intro h0 h1 h2 h3; simp [get_sender_name, h0, h1, h2, h3]

/-- C6 witness: the Alice fixture resolves the matching identifier to
`Alice` and falls back to the input on a non-matching identifier. -/
theorem get_sender_name_spec_witness :
    get_sender_name demoAlice okOracle "123@s.whatsapp.net" = "Alice"
    ∧ get_sender_name demoAlice okOracle "999@s.whatsapp.net" = "999@s.whatsapp.net" :=
  ⟨(get_sender_name_spec demoAlice okOracle "123@s.whatsapp.net").2.1 rfl "Alice" (by decide),
   (get_sender_name_spec demoAlice okOracle "999@s.whatsapp.net").2.2.2.2 rfl (by decide)
     rfl (by decide)⟩

theorem mem_beforeRows {store : Store} {cid ts lim : Nat} {r : MsgRow}
    (hr : r ∈ beforeRows store cid ts lim) :
    r ∈ store.messages ∧ r.conversation_id = cid ∧ r.created_at < ts := by
  unfold beforeRows at hr
  have h1 := (List.mem_insertionSort tsDescRel).mp (List.take_subset _ _ hr)
  rw [List.mem_filter] at h1
  obtain ⟨hmem, hp⟩ := h1
  simp only [Bool.and_eq_true, beq_iff_eq, decide_eq_true_eq] at hp
  exact ⟨hmem, hp.1.1, hp.1.2⟩

theorem mem_afterRows {store : Store} {cid ts lim : Nat} {r : MsgRow}
    (hr : r ∈ afterRows store cid ts lim) :
    r ∈ store.messages ∧ r.conversation_id = cid ∧ ts < r.created_at := by
  unfold afterRows at hr
  have h1 := (List.mem_insertionSort tsAscRel).mp (List.take_subset _ _ hr)
  rw [List.mem_filter] at h1
  obtain ⟨hmem, hp⟩ := h1
  simp only [Bool.and_eq_true, beq_iff_eq, decide_eq_true_eq] at hp
  exact ⟨hmem, hp.1.1, hp.1.2⟩

theorem beforeRows_sorted (store : Store) (cid ts lim : Nat) :
    (beforeRows store cid ts lim).Pairwise tsDescRel :=
  List.Pairwise.sublist (List.take_sublist _ _) (List.sorted_insertionSort tsDescRel _)

theorem afterRows_sorted (store : Store) (cid ts lim : Nat) :
    (afterRows store cid ts lim).Pairwise tsAscRel :=
  List.Pairwise.sublist (List.take_sublist _ _) (List.sorted_insertionSort tsAscRel _)

/-- C1: a successful `get_message_context` returns at most `before`
messages strictly earlier than the anchor and at most `after` messages
strictly later, each list in chronological (ascending) order, and every
returned message (anchor included) comes from a stored row of the
anchor's conversation. -/
theorem get_message_context_window (store : Store) (oracle : Oracle)
    (mid b a : Nat) (ctx : MessageContext)
    (hoc : ∀ n, oracle n = none)
    (h : get_message_context store oracle mid b a = Except.ok ctx) :
    ctx.before.length ≤ b ∧ ctx.after.length ≤ a
    ∧ ctx.before.Pairwise (fun x y => x.timestamp ≤ y.timestamp)
    ∧ ctx.after.Pairwise (fun x y => x.timestamp ≤ y.timestamp)
    ∧ (∀ m ∈ ctx.before, m.timestamp < ctx.message.timestamp)
    ∧ (∀ m ∈ ctx.after, ctx.message.timestamp < m.timestamp)
    ∧ (∃ target ∈ store.messages, target.id = mid
        ∧ ctx.message = row_to_message target (convOf store target.conversation_id) none
        ∧ ∀ m ∈ ctx.before ++ ctx.after, ∃ r ∈ store.messages,
            r.conversation_id = target.conversation_id
            ∧ m = row_to_message r (convOf store r.conversation_id) none) := by
  simp only [get_message_context, get_message_contextAt, hoc] at h
  cases hs : single (contextTargetRows store mid) with
  | error e => rw [hs] at h; simp [Except.map] at h
  | ok row =>
    rw [hs] at h
    simp only [Except.map, Except.ok.injEq] at h
    subst h
    have htarget : row ∈ store.messages ∧ row.id = mid := by
      have hrows := single_eq_ok hs
      have : row ∈ contextTargetRows store mid := by rw [hrows]; exact List.mem_singleton.mpr rfl
      rw [contextTargetRows, List.mem_filter] at this
      obtain ⟨hmem, hp⟩ := this
      simp only [Bool.and_eq_true, beq_iff_eq] at hp
      exact ⟨hmem, hp.1⟩
    refine ⟨?_, ?_, ?_, ?_, ?_, ?_, row, htarget.1, htarget.2, rfl, ?_⟩
    · rw [List.length_map, List.length_reverse]
      unfold beforeRows
      rw [List.length_take]
      exact Nat.min_le_left _ _
    · rw [List.length_map]
      unfold afterRows
      rw [List.length_take]
      exact Nat.min_le_left _ _
    · rw [List.pairwise_map, List.pairwise_reverse]
      exact (beforeRows_sorted store row.conversation_id row.created_at b).imp (fun hab => hab)
    · rw [List.pairwise_map]
      exact (afterRows_sorted store row.conversation_id row.created_at a).imp (fun hab => hab)
    · intro m hm
      rw [List.mem_map] at hm
      obtain ⟨r, hr, rfl⟩ := hm
      rw [List.mem_reverse] at hr
      exact (mem_beforeRows hr).2.2
    · intro m hm
      rw [List.mem_map] at hm
      obtain ⟨r, hr, rfl⟩ := hm
      exact (mem_afterRows hr).2.2
    · intro m hm
      rw [List.mem_append] at hm
      cases hm with
      | inl hm =>
        rw [List.mem_map] at hm
        obtain ⟨r, hr, rfl⟩ := hm
        rw [List.mem_reverse] at hr
        obtain ⟨h1, h2, -⟩ := mem_beforeRows hr
        exact ⟨r, h1, h2, rfl⟩
      | inr hm =>
        rw [List.mem_map] at hm
        obtain ⟨r, hr, rfl⟩ := hm
        obtain ⟨h1, h2, -⟩ := mem_afterRows hr
        exact ⟨r, h1, h2, rfl⟩

/-- C1 witness: the three-message fixture around anchor id 2 with a
window of one message each side. -/
theorem get_message_context_window_witness :
    ∃ ctx, get_message_context demoCtxStore okOracle 2 1 1 = Except.ok ctx
      ∧ ctx.before.length ≤ 1 ∧ ctx.after.length ≤ 1
      ∧ (∀ m ∈ ctx.before, m.timestamp < ctx.message.timestamp)
      ∧ (∀ m ∈ ctx.after, ctx.message.timestamp < m.timestamp) := by
  have h : get_message_context demoCtxStore okOracle 2 1 1 =
      Except.ok
        { message := row_to_message demoCtxRow2 (convOf demoCtxStore 1) none
          before := [row_to_message demoCtxRow1 (convOf demoCtxStore 1) none]
          after := [row_to_message demoCtxRow3 (convOf demoCtxStore 1) none] } := by rfl
  have big := get_message_context_window demoCtxStore okOracle 2 1 1 _ (fun _ => rfl) h
  exact ⟨_, h, big.1, big.2.1, big.2.2.2.2.1, big.2.2.2.2.2.1⟩

theorem bumpLast_id (cid t : Nat) (c : ConvRow) : (bumpLast cid t c).id = c.id := by
  unfold bumpLast; split <;> rfl

theorem save_messageRest_ok (store : Store) (oracle : Oracle) (idx cid : Nat)
    (sender recipient body direction : String) (ext mt : Option String) (now : Nat)
    (hoc : ∀ n, oracle n = none) :
    save_messageRest store oracle idx cid sender recipient body direction ext mt now
      = (some store.nextMsgId,
         { conversations := store.conversations.map (bumpLast cid now)
           messages := store.messages
             ++ [insertedRow store.nextMsgId cid sender recipient body direction ext mt now]
           nextConvId := store.nextConvId
           nextMsgId := store.nextMsgId + 1 }) := by
  unfold save_messageRest
  simp only [hoc]

theorem save_message_ok (store : Store) (oracle : Oracle)
    (jid sender recipient body direction : String) (ext mt : Option String)
    (tsv : Option Nat) (now : Nat)
    (hoc : ∀ n, oracle n = none) :
    ∃ cid st1,
      save_message store oracle jid sender recipient body direction ext mt tsv now
        = (some store.nextMsgId, st1)
      ∧ st1.messages = store.messages
          ++ [insertedRow store.nextMsgId cid sender recipient body direction ext mt
                (tsv.getD now)]
      ∧ (convOf st1 cid).isSome := by
  unfold save_message
  rw [hoc 0]
  cases hc : (store.conversations.filter (convPred jid)).take 1 with
  | cons c rest =>
    have hcmem : c ∈ store.conversations := by
      have : c ∈ (store.conversations.filter (convPred jid)).take 1 := by
        rw [hc]; exact List.mem_cons_self c rest
      exact List.mem_of_mem_filter (List.take_subset _ _ this)
    refine ⟨c.id, _, save_messageRest_ok store oracle 1 c.id sender recipient body direction
      ext mt (tsv.getD now) hoc, rfl, ?_⟩
    unfold convOf
    rw [List.find?_isSome]
    exact ⟨bumpLast c.id (tsv.getD now) c, List.mem_map_of_mem _ hcmem,
      by rw [bumpLast_id]; exact beq_self_eq_true c.id⟩
  | nil =>
    rw [hoc 1]
    refine ⟨store.nextConvId, _, save_messageRest_ok _ oracle 2 _ sender recipient body direction
      ext mt (tsv.getD now) hoc, rfl, ?_⟩
    unfold convOf
    rw [List.find?_isSome]
    refine ⟨bumpLast store.nextConvId (tsv.getD now) (newConvRow store.nextConvId jid),
      List.mem_map_of_mem _ (List.mem_append_right _ (List.mem_singleton.mpr rfl)),
      by rw [bumpLast_id]; exact beq_self_eq_true store.nextConvId⟩

/-- C3: a message saved with direction `outbound` and a non-empty
recipient and then retrieved through `get_message_context` (in a store
whose message ids stay below the fresh-id counter) comes back with
`is_from_me = true` and `chat_jid` equal to the saved recipient. -/
theorem save_outbound_roundtrip (store : Store) (oracle oracle2 : Oracle)
    (jid sender recipient body : String) (ext mt : Option String) (tsv : Option Nat)
    (now b a mid : Nat) (store1 : Store) (ctx : MessageContext)
    (hwf : ∀ m ∈ store.messages, m.id < store.nextMsgId)
    (hoc : ∀ n, oracle n = none) (hoc2 : ∀ n, oracle2 n = none)
    (hrec : recipient ≠ "")
    (hsave : save_message store oracle jid sender recipient body "outbound" ext mt tsv now
      = (some mid, store1))
    (hctx : get_message_context store1 oracle2 mid b a = Except.ok ctx) :
    ctx.message.is_from_me = true ∧ ctx.message.chat_jid = recipient := by
  obtain ⟨cid, st1, heq, hmsgs, hsome⟩ :=
    save_message_ok store oracle jid sender recipient body "outbound" ext mt tsv now hoc
  rw [heq] at hsave
  simp only [Prod.mk.injEq, Option.some.injEq] at hsave
  obtain ⟨h1, h2⟩ := hsave
  subst h1
  subst h2
  have htr : contextTargetRows st1 store.nextMsgId
      = [insertedRow store.nextMsgId cid sender recipient body "outbound" ext mt
          (tsv.getD now)] := by
    unfold contextTargetRows
    rw [hmsgs, List.filter_append]
    have hold : store.messages.filter
        (fun m => m.id == store.nextMsgId && (convOf st1 m.conversation_id).isSome)
        = [] := by
      apply List.filter_eq_nil_iff.mpr
      intro m hm
      have hne : m.id ≠ store.nextMsgId := Nat.ne_of_lt (hwf m hm)
      simp [hne]
    rw [hold]
    simp only [List.nil_append, List.filter_cons, List.filter_nil]
    rw [if_pos]
    simp only [Bool.and_eq_true, beq_iff_eq]
    exact ⟨rfl, hsome⟩
  simp only [get_message_context, get_message_contextAt, hoc2, htr, single] at hctx
  simp only [Except.map, Except.ok.injEq] at hctx
  subst hctx
  constructor
  · rfl
  · have hne : recipient.isEmpty = false := by
      cases he : recipient.isEmpty
      · rfl
      · exact absurd ((String.isEmpty_iff recipient).mp he) hrec
    simp [row_to_message, insertedRow, pyTruthy, hne]

/-- C3 witness: saving an outbound message into the empty store and
reading it back through its context. -/
theorem save_outbound_roundtrip_witness :
    ∃ mid store1 ctx,
      save_message demoEmpty okOracle "123@s.whatsapp.net" "me" "123@s.whatsapp.net" "hi"
        "outbound" none none none 10 = (some mid, store1)
      ∧ get_message_context store1 okOracle mid 1 1 = Except.ok ctx
      ∧ ctx.message.is_from_me = true
      ∧ ctx.message.chat_jid = "123@s.whatsapp.net" := by
  refine ⟨1, _, _, rfl, rfl, ?_⟩
  exact save_outbound_roundtrip demoEmpty okOracle okOracle "123@s.whatsapp.net" "me"
    "123@s.whatsapp.net" "hi" none none none 10 1 1 1 _ _ (by simp [demoEmpty])
    (fun _ => rfl) (fun _ => rfl) (by decide) rfl rfl

theorem convPred_bumpLast (jid : String) (cid t : Nat) (c : ConvRow) :
    convPred jid (bumpLast cid t c) = convPred jid c := by
  unfold bumpLast convPred; split <;> rfl

theorem filter_convPred_map_bumpLast (jid : String) (cid t : Nat) (l : List ConvRow) :
    (l.map (bumpLast cid t)).filter (convPred jid)
      = (l.filter (convPred jid)).map (bumpLast cid t) := by
  rw [List.filter_map]
  congr 1
  exact List.filter_congr (fun x _ => convPred_bumpLast jid cid t x)

theorem save_message_found (store : Store) (oracle : Oracle)
    (jid sender recipient body direction : String) (ext mt : Option String)
    (tsv : Option Nat) (now : Nat) (c : ConvRow) (rest : List ConvRow)
    (hoc0 : oracle 0 = none)
    (hfind : (store.conversations.filter (convPred jid)).take 1 = c :: rest) :
    save_message store oracle jid sender recipient body direction ext mt tsv now
      = save_messageRest store oracle 1 c.id sender recipient body direction ext mt
          (tsv.getD now) := by
  simp only [save_message, hoc0, hfind]

theorem save_message_notfound (store : Store) (oracle : Oracle)
    (jid sender recipient body direction : String) (ext mt : Option String)
    (tsv : Option Nat) (now : Nat)
    (hoc0 : oracle 0 = none) (hoc1 : oracle 1 = none)
    (hfind : (store.conversations.filter (convPred jid)).take 1 = []) :
    save_message store oracle jid sender recipient body direction ext mt tsv now
      = save_messageRest
          { store with
              conversations := store.conversations ++ [newConvRow store.nextConvId jid]
              nextConvId := store.nextConvId + 1 }
          oracle 2 store.nextConvId sender recipient body direction ext mt
          (tsv.getD now) := by
  simp only [save_message, hoc0, hfind, hoc1]
  rfl

/-- C4: when no conversation row matches `jid`, two successive
`save_message` calls with that same `conversation_jid` leave exactly one
matching conversation row in the store — the second call finds the row
the first created instead of inserting a duplicate — and both inserted
message rows are attached to it (and are distinct rows). -/
theorem save_message_conversation_idempotent
    (store : Store) (oracle : Oracle) (jid : String)
    (s1 r1 b1 d1 s2 r2 b2 d2 : String) (e1 m1 e2 m2 : Option String)
    (t1 t2 : Option Nat) (now1 now2 : Nat)
    (hoc : ∀ n, oracle n = none)
    (hnew : ∀ c ∈ store.conversations, convPred jid c = false) :
    ∃ c,
      (save_message (save_message store oracle jid s1 r1 b1 d1 e1 m1 t1 now1).2
          oracle jid s2 r2 b2 d2 e2 m2 t2 now2).2.conversations.filter (convPred jid)
        = [c]
      ∧ (∃ mr ∈ (save_message (save_message store oracle jid s1 r1 b1 d1 e1 m1 t1 now1).2
            oracle jid s2 r2 b2 d2 e2 m2 t2 now2).2.messages,
          (save_message store oracle jid s1 r1 b1 d1 e1 m1 t1 now1).1 = some mr.id
          ∧ mr.conversation_id = c.id)
      ∧ (∃ mr ∈ (save_message (save_message store oracle jid s1 r1 b1 d1 e1 m1 t1 now1).2
            oracle jid s2 r2 b2 d2 e2 m2 t2 now2).2.messages,
          (save_message (save_message store oracle jid s1 r1 b1 d1 e1 m1 t1 now1).2
            oracle jid s2 r2 b2 d2 e2 m2 t2 now2).1 = some mr.id
          ∧ mr.conversation_id = c.id)
      ∧ (save_message store oracle jid s1 r1 b1 d1 e1 m1 t1 now1).1
        ≠ (save_message (save_message store oracle jid s1 r1 b1 d1 e1 m1 t1 now1).2
            oracle jid s2 r2 b2 d2 e2 m2 t2 now2).1 := by
  have hfil : store.conversations.filter (convPred jid) = [] :=
    List.filter_eq_nil_iff.mpr (fun c hc => by simp [hnew c hc])
  have h1 : save_message store oracle jid s1 r1 b1 d1 e1 m1 t1 now1
      = (some store.nextMsgId,
         { conversations := (store.conversations ++ [newConvRow store.nextConvId jid]).map
             (bumpLast store.nextConvId (t1.getD now1))
           messages := store.messages
             ++ [insertedRow store.nextMsgId store.nextConvId s1 r1 b1 d1 e1 m1 (t1.getD now1)]
           nextConvId := store.nextConvId + 1
           nextMsgId := store.nextMsgId + 1 }) := by
    rw [save_message_notfound store oracle jid s1 r1 b1 d1 e1 m1 t1 now1 (hoc 0) (hoc 1)
      (by rw [hfil]; rfl)]
    exact save_messageRest_ok _ oracle 2 _ s1 r1 b1 d1 e1 m1 (t1.getD now1) hoc
  have hA : convPred jid (newConvRow store.nextConvId jid) = true := by
    simp [convPred, newConvRow]
  have hfil2 : ((store.conversations ++ [newConvRow store.nextConvId jid]).map
        (bumpLast store.nextConvId (t1.getD now1))).filter (convPred jid)
      = [bumpLast store.nextConvId (t1.getD now1) (newConvRow store.nextConvId jid)] := by
    rw [filter_convPred_map_bumpLast, List.filter_append, hfil]
    simp [hA]
  have h2 : save_message
      { conversations := (store.conversations ++ [newConvRow store.nextConvId jid]).map
          (bumpLast store.nextConvId (t1.getD now1))
        messages := store.messages
          ++ [insertedRow store.nextMsgId store.nextConvId s1 r1 b1 d1 e1 m1 (t1.getD now1)]
        nextConvId := store.nextConvId + 1
        nextMsgId := store.nextMsgId + 1 }
      oracle jid s2 r2 b2 d2 e2 m2 t2 now2
      = (some (store.nextMsgId + 1),
         { conversations := ((store.conversations ++ [newConvRow store.nextConvId jid]).map
             (bumpLast store.nextConvId (t1.getD now1))).map
               (bumpLast store.nextConvId (t2.getD now2))
           messages := (store.messages
             ++ [insertedRow store.nextMsgId store.nextConvId s1 r1 b1 d1 e1 m1 (t1.getD now1)])
             ++ [insertedRow (store.nextMsgId + 1) store.nextConvId s2 r2 b2 d2 e2 m2
                   (t2.getD now2)]
           nextConvId := store.nextConvId + 1
           nextMsgId := store.nextMsgId + 1 + 1 }) := by
    rw [save_message_found _ oracle jid s2 r2 b2 d2 e2 m2 t2 now2
      (bumpLast store.nextConvId (t1.getD now1) (newConvRow store.nextConvId jid)) []
      (hoc 0) (by rw [hfil2]; rfl)]
    rw [bumpLast_id]
    exact save_messageRest_ok _ oracle 1 _ s2 r2 b2 d2 e2 m2 (t2.getD now2) hoc
  simp only [h1, h2]
  refine ⟨bumpLast store.nextConvId (t2.getD now2)
    (bumpLast store.nextConvId (t1.getD now1) (newConvRow store.nextConvId jid)),
    ?_, ?_, ?_, ?_⟩
  · rw [filter_convPred_map_bumpLast, hfil2]
    rfl
  · refine ⟨insertedRow store.nextMsgId store.nextConvId s1 r1 b1 d1 e1 m1 (t1.getD now1),
      List.mem_append_left _ (List.mem_append_right _ (List.mem_singleton.mpr rfl)),
      rfl, ?_⟩
    rw [bumpLast_id, bumpLast_id]
    rfl
  · refine ⟨insertedRow (store.nextMsgId + 1) store.nextConvId s2 r2 b2 d2 e2 m2 (t2.getD now2),
      List.mem_append_right _ (List.mem_singleton.mpr rfl),
      rfl, ?_⟩
    rw [bumpLast_id, bumpLast_id]
    rfl
  · simp

/-- C4 witness: two saves of the same fresh `conversation_jid` into the
empty store. -/
theorem save_message_conversation_idempotent_witness :
    ∃ c,
      (save_message (save_message demoEmpty okOracle "123@s.whatsapp.net" "me"
          "123@s.whatsapp.net" "hi" "outbound" none none none 10).2
          okOracle "123@s.whatsapp.net" "me" "123@s.whatsapp.net" "yo" "outbound"
          none none none 20).2.conversations.filter (convPred "123@s.whatsapp.net")
        = [c]
      ∧ (∃ mr ∈ (save_message (save_message demoEmpty okOracle "123@s.whatsapp.net" "me"
            "123@s.whatsapp.net" "hi" "outbound" none none none 10).2
            okOracle "123@s.whatsapp.net" "me" "123@s.whatsapp.net" "yo" "outbound"
            none none none 20).2.messages,
          (save_message demoEmpty okOracle "123@s.whatsapp.net" "me" "123@s.whatsapp.net"
            "hi" "outbound" none none none 10).1 = some mr.id
          ∧ mr.conversation_id = c.id)
      ∧ (∃ mr ∈ (save_message (save_message demoEmpty okOracle "123@s.whatsapp.net" "me"
            "123@s.whatsapp.net" "hi" "outbound" none none none 10).2
            okOracle "123@s.whatsapp.net" "me" "123@s.whatsapp.net" "yo" "outbound"
            none none none 20).2.messages,
          (save_message (save_message demoEmpty okOracle "123@s.whatsapp.net" "me"
            "123@s.whatsapp.net" "hi" "outbound" none none none 10).2
            okOracle "123@s.whatsapp.net" "me" "123@s.whatsapp.net" "yo" "outbound"
            none none none 20).1 = some mr.id
          ∧ mr.conversation_id = c.id)
      ∧ (save_message demoEmpty okOracle "123@s.whatsapp.net" "me" "123@s.whatsapp.net"
          "hi" "outbound" none none none 10).1
        ≠ (save_message (save_message demoEmpty okOracle "123@s.whatsapp.net" "me"
            "123@s.whatsapp.net" "hi" "outbound" none none none 10).2
            okOracle "123@s.whatsapp.net" "me" "123@s.whatsapp.net" "yo" "outbound"
            none none none 20).1 :=
  save_message_conversation_idempotent demoEmpty okOracle "123@s.whatsapp.net"
    "me" "123@s.whatsapp.net" "hi" "outbound" "me" "123@s.whatsapp.net" "yo" "outbound"
    none none none none none none 10 20 (fun _ => rfl) (by simp [demoEmpty])

end Supabase
